import Mathlib

/-!
Shallow embedding of the transaction-execution core of miden-base:
the kernel event codec (miden-lib/src/transaction/events.rs), the
transaction executor (miden-tx/src/executor/mod.rs) and the transaction
verifier (miden-tx/src/verifier/mod.rs), together with theorems settling
the specification claims about them.

Machine integers are modelled as Nat with explicit masking where overflow
matters.  External collaborators that are not part of the surveyed source
(the merkle-store diff, the proof system, the output parser and the
AccountDelta constructor from miden-objects) appear either as oracle
arguments or as definitions modelled from the spec; each such definition
carries a doc comment saying so.
-/

namespace MidenBase

-- ================================================================================================
-- EVENT CODEC  (miden-lib/src/transaction/events.rs)
-- ================================================================================================

/-- Events which may be emitted by a transaction kernel; the three variants
carry the u32 discriminants 0x2_0000, 0x2_0001 and 0x2_0002 in the source. -/
inductive TransactionEvent where
  | AddAssetToAccountVault
  | RemoveAssetFromAccountVault
  | PushAccountProcedureIndex
  deriving DecidableEq, Repr

/-- Errors of the event decoder (TransactionEventParsingError in the source). -/
inductive TransactionEventParsingError where
  | NotTransactionEvent (value : Nat)
  | InvalidTransactionEvent (value : Nat)
  deriving DecidableEq, Repr

/-- The u32 representation of a TransactionEvent, from the repr(u32)
discriminants in the source. -/
def TransactionEvent.toU32 : TransactionEvent → Nat
  | .AddAssetToAccountVault => 0x20000
  | .RemoveAssetFromAccountVault => 0x20001
  | .PushAccountProcedureIndex => 0x20002

/-- Embedding of the TryFrom u32 implementation for TransactionEvent: the value
of the upper 16 bits must equal the fixed event-id upper-bits value 2, otherwise
NotTransactionEvent; a matching value that is none of the three known codes is
InvalidTransactionEvent. -/
def TransactionEvent.tryFromU32 (value : Nat) :
    Except TransactionEventParsingError TransactionEvent :=
  if value >>> 16 ≠ 2 then
    .error (.NotTransactionEvent value)
  else if value = 0x20000 then
    .ok .AddAssetToAccountVault
  else if value = 0x20001 then
    .ok .RemoveAssetFromAccountVault
  else if value = 0x20002 then
    .ok .PushAccountProcedureIndex
  else
    .error (.InvalidTransactionEvent value)

-- ================================================================================================
-- TRANSACTION VERIFIER  (miden-tx/src/verifier/mod.rs)
-- ================================================================================================

/-- Opaque error of the external proof system's verify function. -/
abbrev VerificationError := Nat

/-- Errors of the transaction verifier (TransactionVerifierError in the source). -/
inductive TransactionVerifierError where
  | TransactionVerificationFailed (inner : VerificationError)
  | InsufficientProofSecurityLevel (achieved : Nat) (required : Nat)
  deriving DecidableEq, Repr

/-- The transaction verifier: the kernel's program identity (opaque here) and
the minimum acceptable proof security level. -/
structure TransactionVerifier where
  tx_program_info : Nat
  proof_security_level : Nat
  deriving DecidableEq, Repr

/-- Embedding of TransactionVerifier::verify.  The external cryptographic
verification (miden-verifier, out of scope per the spec) is abstracted as its
result: an oracle argument that either fails or reports the achieved security
level.  The dispatch mirrors the source: a verification failure is wrapped as
TransactionVerificationFailed; on success the achieved level is compared
against the configured minimum and an insufficient level is rejected with
InsufficientProofSecurityLevel (achieved, required). -/
def TransactionVerifier.verify (self : TransactionVerifier)
    (verify_proof : Except VerificationError Nat) :
    Except TransactionVerifierError Unit :=
  match verify_proof with
  | .error e => .error (.TransactionVerificationFailed e)
  | .ok proof_security_level =>
    if proof_security_level < self.proof_security_level then
      .error (.InsufficientProofSecurityLevel proof_security_level self.proof_security_level)
    else
      .ok ()

-- ================================================================================================
-- ACCOUNTS AND STORAGE  (data model used by miden-tx/src/executor/mod.rs)
-- ================================================================================================

/-- A field element, abstracted. -/
abbrev Felt := Nat

/-- A word (four field elements), abstracted. -/
abbrev Word := Nat

/-- An account identifier, abstracted. -/
abbrev AccountId := Nat

/-- The storage tree's canonical empty-leaf sentinel (EMPTY_WORD). -/
def EMPTY_WORD : Word := 0

/-- Depth of the account storage merkle tree
(AccountStorage::STORAGE_TREE_DEPTH = 8, miden-objects). -/
def AccountStorage.STORAGE_TREE_DEPTH : Nat := 8

/-- A storage-tree root.  Hashing is abstracted as injective, so a root is
identified with the leaf vector it commits to: the function from leaf index
to leaf value. -/
abbrev StorageRoot := Nat → Word

/-- Result of the merkle-store tree diff: cleared leaf indices and updated
leaf indices paired with their new values (MerkleTreeDelta, miden-crypto). -/
structure MerkleTreeDelta where
  cleared_slots : List Nat
  updated_slots : List (Nat × Word)

/-- Modelled from the spec: merkle_tree_delta (miden-objects crypto merkle
module, not under src/).  Spec section 4.3: the diff of the initial and final
trees at the given depth "yields two disjoint sets: leaf indices whose value
became the tree's canonical empty sentinel (cleared) and leaf indices whose
value changed to something else (updated, paired with the new value)".  Roots
are identified with leaf vectors and the merkle store is assumed to hold the
authentication paths recorded during the run, so the diff is total here. -/
def merkle_tree_delta (initial_root final_root : StorageRoot) (depth : Nat) :
    MerkleTreeDelta :=
  { cleared_slots := (List.range (2 ^ depth)).filter
      (fun i => initial_root i != final_root i && final_root i == EMPTY_WORD),
    updated_slots := ((List.range (2 ^ depth)).filter
      (fun i => initial_root i != final_root i && final_root i != EMPTY_WORD)).map
      (fun i => (i, final_root i)) }

/-- Rust u8 cast: truncation to the low 8 bits. -/
def toU8 (n : Nat) : Nat := n % 256

/-- Storage delta of an account: cleared slot indices and updated slot indices
paired with new values; indices are u8 in the source (here: results of toU8). -/
structure AccountStorageDelta where
  cleared_items : List Nat
  updated_items : List (Nat × Word)

/-- Embedding of extract_account_storage_delta (executor/mod.rs): run the tree
diff between the initial account's storage root and the final account stub's
storage root at the fixed storage tree depth, then map the resulting slot
indices through the u8 cast. -/
def extract_account_storage_delta (initial_root final_root : StorageRoot) :
    AccountStorageDelta :=
  let tree_delta := merkle_tree_delta initial_root final_root
    AccountStorage.STORAGE_TREE_DEPTH
  { cleared_items := tree_delta.cleared_slots.map (fun idx => toU8 idx),
    updated_items := tree_delta.updated_slots.map (fun p => (toU8 p.1, p.2)) }

/-- Resetting every slot listed in cleared to the empty sentinel. -/
def applyCleared (root : StorageRoot) (cleared : List Nat) : StorageRoot :=
  fun i => if i ∈ cleared then EMPTY_WORD else root i

/-- Setting every slot listed in updated to its listed new value. -/
def applyUpdated (root : StorageRoot) (updated : List (Nat × Word)) : StorageRoot :=
  fun i =>
    match updated.lookup i with
    | some v => v
    | none => root i

/-- Whether some slot index appears in both the cleared and the updated set. -/
def AccountStorageDelta.hasOverlap (d : AccountStorageDelta) : Bool :=
  d.cleared_items.any (fun i => d.updated_items.any (fun p => p.1 == i))

/-- A vault delta: per-asset net amounts accumulated by the host. -/
abbrev AccountVaultDelta := List (Nat × Int)

/-- The combined account delta (AccountDelta, miden-objects). -/
structure AccountDelta where
  storage : AccountStorageDelta
  vault : AccountVaultDelta
  nonce : Option Felt

/-- Modelled from the spec: the checked constructor AccountDelta::new
(miden-objects, not under src/).  Spec section 4.3: "Construction of the
combined delta must reject self-contradictory deltas (e.g., a cleared slot
also listed as updated) — fail-fast, not silently prefer one entry." -/
def AccountDelta.new (storage : AccountStorageDelta) (vault : AccountVaultDelta)
    (nonce : Option Felt) : Option AccountDelta :=
  if storage.hasOverlap then none else some ⟨storage, vault, nonce⟩

-- ================================================================================================
-- TRANSACTION EXECUTOR  (miden-tx/src/executor/mod.rs)
-- ================================================================================================

/-- An opaque data-store error, wrapped by the executor. -/
abbrev DataStoreError := Nat

/-- An opaque compiler error, wrapped by the executor. -/
abbrev CompilerError := Nat

/-- An opaque VM execution fault, wrapped by the executor. -/
abbrev ExecutionError := Nat

/-- An opaque output-parsing error (TransactionOutputError). -/
abbrev TransactionOutputError := Nat

/-- A compiled transaction program, abstracted. -/
abbrev Program := Nat

/-- A compiled transaction script, abstracted. -/
abbrev TransactionScript := Nat

/-- The VM's stack outputs, abstracted. -/
abbrev StackOutputs := Nat

/-- The advice witness produced by finalizing the advice recorder, abstracted. -/
abbrev AdviceWitness := Nat

/-- An account's initial state as the executor reads it: id, nonce and
storage root (the root identified with its leaf vector); the vault is carried
opaquely. -/
structure Account where
  id : AccountId
  nonce : Felt
  storage : StorageRoot
  vault : Nat

/-- The final account stub claimed by the VM run: id, nonce, storage root and
vault root. -/
structure AccountStub where
  id : AccountId
  nonce : Felt
  storage_root : StorageRoot
  vault_root : Nat

/-- Inputs fetched from the data store for one execution. -/
structure TransactionInputs where
  account : Account
  block_ref : Nat
  input_notes : List Nat

/-- Outputs parsed from the VM's stack outputs and advice map. -/
structure TransactionOutputs where
  account : AccountStub
  output_notes : List Nat

/-- The prepared transaction bridging compilation and execution. -/
structure PreparedTransaction where
  program : Program
  tx_script : Option TransactionScript
  tx_inputs : TransactionInputs

/-- What remains of the transaction host after the run: the accumulated vault
delta and (after finalizing the advice recorder) the advice witness.  The
recorded merkle store is absorbed into the total tree diff model. -/
structure TransactionHost where
  vault_delta : AccountVaultDelta
  advice_witness : AdviceWitness

/-- The terminal artifact of execution. -/
structure ExecutedTransaction where
  program : Program
  tx_inputs : TransactionInputs
  tx_outputs : TransactionOutputs
  account_delta : AccountDelta
  tx_script : Option TransactionScript
  advice_witness : AdviceWitness

/-- The executor's error enum (TransactionExecutorError).  The variant
CompileTransactionFiled keeps the source's spelling.  Panicked models the
Rust expect panic on AccountDelta::new at executor/mod.rs line 250. -/
inductive TransactionExecutorError where
  | FetchAccountCodeFailed (e : DataStoreError)
  | LoadAccountFailed (e : CompilerError)
  | CompileNoteScriptFailed (e : CompilerError)
  | CompileTransactionScriptFailed (e : CompilerError)
  | FetchTransactionInputsFailed (e : DataStoreError)
  | CompileTransactionFiled (e : CompilerError)
  | ExecuteTransactionProgramFailed (e : ExecutionError)
  | InvalidTransactionOutput (e : TransactionOutputError)
  | InconsistentAccountId (input_id : AccountId) (output_id : AccountId)
  | Panicked

/-- Embedding of build_executed_transaction (executor/mod.rs lines 208 to 260).
The external output parser (TransactionKernel::parse_transaction_outputs,
miden-lib, out of the surveyed excerpt) is an oracle argument applied to the
stack outputs.  The steps mirror the source in order: parse the outputs, check
the id invariant, extract the storage delta, compute the nonce delta, build the
combined account delta (whose checked constructor panics on a contradictory
delta via expect) and assemble the executed transaction. -/
def build_executed_transaction
    (parse_transaction_outputs : StackOutputs →
      Except TransactionOutputError TransactionOutputs)
    (program : Program) (tx_script : Option TransactionScript)
    (tx_inputs : TransactionInputs) (stack_outputs : StackOutputs)
    (host : TransactionHost) :
    Except TransactionExecutorError ExecutedTransaction :=
  match parse_transaction_outputs stack_outputs with
  | .error e => .error (.InvalidTransactionOutput e)
  | .ok tx_outputs =>
    let final_account := tx_outputs.account
    let initial_account := tx_inputs.account
    if initial_account.id ≠ final_account.id then
      .error (.InconsistentAccountId initial_account.id final_account.id)
    else
      let storage_delta := extract_account_storage_delta initial_account.storage
        final_account.storage_root
      let nonce_delta :=
        if initial_account.nonce ≠ final_account.nonce then
          some final_account.nonce
        else
          none
      match AccountDelta.new storage_delta host.vault_delta nonce_delta with
      | none => .error .Panicked
      | some account_delta =>
        .ok { program := program, tx_inputs := tx_inputs, tx_outputs := tx_outputs,
              account_delta := account_delta, tx_script := tx_script,
              advice_witness := host.advice_witness }

/-- Embedding of TransactionExecutor::prepare_transaction (executor/mod.rs
lines 179 to 201).  The data store and the compiler are oracle arguments;
their failures are wrapped as FetchTransactionInputsFailed and
CompileTransactionFiled (the source's spelling) in that order. -/
def prepare_transaction
    (get_transaction_inputs : Except DataStoreError TransactionInputs)
    (compile_transaction : TransactionInputs → Except CompilerError Program)
    (tx_script : Option TransactionScript) :
    Except TransactionExecutorError PreparedTransaction :=
  match get_transaction_inputs with
  | .error e => .error (.FetchTransactionInputsFailed e)
  | .ok tx_inputs =>
    match compile_transaction tx_inputs with
    | .error e => .error (.CompileTransactionFiled e)
    | .ok tx_program =>
      .ok { program := tx_program, tx_script := tx_script, tx_inputs := tx_inputs }

/-- Embedding of TransactionExecutor::execute_transaction (executor/mod.rs
lines 136 to 166): prepare the transaction, run the VM (an oracle argument
yielding the stack outputs and the final host state, or the first fault,
wrapped as ExecuteTransactionProgramFailed), then build the executed
transaction. -/
def execute_transaction
    (get_transaction_inputs : Except DataStoreError TransactionInputs)
    (compile_transaction : TransactionInputs → Except CompilerError Program)
    (vm_execute : Program → TransactionInputs →
      Except ExecutionError (StackOutputs × TransactionHost))
    (parse_transaction_outputs : StackOutputs →
      Except TransactionOutputError TransactionOutputs)
    (tx_script : Option TransactionScript) :
    Except TransactionExecutorError ExecutedTransaction :=
  match prepare_transaction get_transaction_inputs compile_transaction tx_script with
  | .error e => .error e
  | .ok transaction =>
    match vm_execute transaction.program transaction.tx_inputs with
    | .error e => .error (.ExecuteTransactionProgramFailed e)
    | .ok (stack_outputs, host) =>
      build_executed_transaction parse_transaction_outputs transaction.program
        transaction.tx_script transaction.tx_inputs stack_outputs host

/-- The nonce component of a successful build's account delta; none when the
build failed. -/
def resultNonceDelta (r : Except TransactionExecutorError ExecutedTransaction) :
    Option (Option Felt) :=
  match r with
  | .ok et => some et.account_delta.nonce
  | .error _ => none

-- ================================================================================================
-- HELPER LEMMAS
-- ================================================================================================

/-- Looking a key up in a key-value list built by pairing each key with its
image under f returns the image exactly when the key is listed. -/
lemma lookup_map_pair (f : Nat → Word) (l : List Nat) (i : Nat) :
    (l.map (fun j => (j, f j))).lookup i = if i ∈ l then some (f i) else none := by
  induction l with
  | nil => simp
  | cons j t ih =>
    simp only [List.map_cons, List.lookup_cons]
    by_cases h : i = j
    · subst h; simp
    · have hb : (i == j) = false := beq_eq_false_iff_ne.mpr h
      simp [hb, ih, h]

/-- The u8 cast is the identity on a list of indices below 256. -/
lemma map_toU8_of_lt (l : List Nat) (h : ∀ x ∈ l, x < 256) :
    l.map (fun idx => toU8 idx) = l := by
  induction l with
  | nil => simp
  | cons x t ih =>
    have hx : x < 256 := h x (List.mem_cons_self x t)
    have hx8 : toU8 x = x := Nat.mod_eq_of_lt hx
    simp only [List.map_cons, hx8, List.cons.injEq, true_and]
    exact ih (fun y hy => h y (List.mem_cons_of_mem x hy))

/-- Every slot index in the tree diff at the storage depth is below 256. -/
lemma merkle_tree_delta_cleared_lt (initial_root final_root : StorageRoot) :
    ∀ i ∈ (merkle_tree_delta initial_root final_root
      AccountStorage.STORAGE_TREE_DEPTH).cleared_slots, i < 256 := by
  intro i hi
  simp only [merkle_tree_delta, List.mem_filter, List.mem_range] at hi
  have : (2 : Nat) ^ AccountStorage.STORAGE_TREE_DEPTH = 256 := by
    norm_num [AccountStorage.STORAGE_TREE_DEPTH]
  omega

/-- Every updated slot index in the tree diff at the storage depth is below 256. -/
lemma merkle_tree_delta_updated_lt (initial_root final_root : StorageRoot) :
    ∀ p ∈ (merkle_tree_delta initial_root final_root
      AccountStorage.STORAGE_TREE_DEPTH).updated_slots, p.1 < 256 := by
  intro p hp
  simp only [merkle_tree_delta, List.mem_map, List.mem_filter, List.mem_range] at hp
  obtain ⟨j, ⟨hj, _⟩, hpj⟩ := hp
  have : (2 : Nat) ^ AccountStorage.STORAGE_TREE_DEPTH = 256 := by
    norm_num [AccountStorage.STORAGE_TREE_DEPTH]
  subst hpj
  simpa using by omega

/-- The u8 cast in the extraction is lossless on the cleared indices: the
extracted cleared items are the tree diff's cleared slots unchanged. -/
lemma extract_cleared_eq (initial_root final_root : StorageRoot) :
    (extract_account_storage_delta initial_root final_root).cleared_items
      = (merkle_tree_delta initial_root final_root
          AccountStorage.STORAGE_TREE_DEPTH).cleared_slots := by
  show ((merkle_tree_delta initial_root final_root
      AccountStorage.STORAGE_TREE_DEPTH).cleared_slots).map (fun idx => toU8 idx) = _
  exact map_toU8_of_lt _ (merkle_tree_delta_cleared_lt initial_root final_root)

/-- The u8 cast in the extraction is lossless on the updated indices: the
extracted updated items are the tree diff's updated slots unchanged. -/
lemma extract_updated_eq (initial_root final_root : StorageRoot) :
    (extract_account_storage_delta initial_root final_root).updated_items
      = (merkle_tree_delta initial_root final_root
          AccountStorage.STORAGE_TREE_DEPTH).updated_slots := by
  show ((merkle_tree_delta initial_root final_root
      AccountStorage.STORAGE_TREE_DEPTH).updated_slots).map (fun p => (toU8 p.1, p.2)) = _
  refine (List.map_congr_left ?_).trans (List.map_id _)
  intro p hp
  have hlt : p.1 < 256 := merkle_tree_delta_updated_lt initial_root final_root p hp
  have hcast : toU8 p.1 = p.1 := Nat.mod_eq_of_lt hlt
  simp [hcast]

/-- The cleared and updated sets produced by the storage-delta extraction never
overlap: a cleared slot's final value is the empty sentinel while an updated
slot's final value is not. -/
lemma hasOverlap_extract (initial_root final_root : StorageRoot) :
    (extract_account_storage_delta initial_root final_root).hasOverlap = false := by
  rw [AccountStorageDelta.hasOverlap, extract_cleared_eq, extract_updated_eq]
  rw [List.any_eq_false]
  intro x hx
  simp only [merkle_tree_delta, List.mem_filter, List.mem_range, Bool.and_eq_true,
    bne_iff_ne, beq_iff_eq] at hx
  obtain ⟨-, hxne, hxempty⟩ := hx
  simp only [merkle_tree_delta, List.any_eq_true, List.mem_map, List.mem_filter,
    List.mem_range, Bool.and_eq_true, bne_iff_ne, beq_iff_eq, not_exists, not_and]
  rintro p ⟨j, ⟨-, -, hjne⟩, rfl⟩
  intro hpx
  have hjx : j = x := by simpa using hpx
  exact hjne (by rw [hjx, hxempty])

/-- When output parsing succeeds and the account id is unchanged, the build
succeeds and returns the executed transaction assembled from the extracted
storage delta, the host's vault delta and the nonce delta. -/
lemma build_executed_transaction_ok
    (parse_transaction_outputs : StackOutputs →
      Except TransactionOutputError TransactionOutputs)
    (program : Program) (tx_script : Option TransactionScript)
    (tx_inputs : TransactionInputs) (stack_outputs : StackOutputs)
    (host : TransactionHost) (tx_outputs : TransactionOutputs)
    (hparse : parse_transaction_outputs stack_outputs = .ok tx_outputs)
    (hid : tx_inputs.account.id = tx_outputs.account.id) :
    build_executed_transaction parse_transaction_outputs program tx_script tx_inputs
      stack_outputs host =
    .ok { program := program, tx_inputs := tx_inputs, tx_outputs := tx_outputs,
          account_delta :=
            ⟨extract_account_storage_delta tx_inputs.account.storage
                tx_outputs.account.storage_root,
             host.vault_delta,
             if tx_inputs.account.nonce ≠ tx_outputs.account.nonce then
               some tx_outputs.account.nonce
             else none⟩,
          tx_script := tx_script, advice_witness := host.advice_witness } := by
  unfold build_executed_transaction
  rw [hparse]
  simp only [hid, ne_eq, not_true_eq_false, if_false, ite_false]
  rw [AccountDelta.new, hasOverlap_extract]
  simp

-- ================================================================================================
-- CONCRETE EXAMPLE DATA (used by witnesses)
-- ================================================================================================

/-- Example initial storage: slot 3 holds 7, slot 5 holds 9, all else empty. -/
def exInitialRoot : StorageRoot :=
  fun i => if i = 3 then 7 else if i = 5 then 9 else EMPTY_WORD

/-- Example final storage: slot 3 updated to 8 and slot 5 cleared. -/
def exFinalRoot : StorageRoot :=
  fun i => if i = 3 then 8 else EMPTY_WORD

/-- Example initial account: id 1, nonce 5. -/
def exAccount : Account := ⟨1, 5, exInitialRoot, 0⟩

/-- Example transaction inputs for the example account. -/
def exTxInputs : TransactionInputs := ⟨exAccount, 0, []⟩

/-- Example final stub with the same id and an unchanged nonce. -/
def exStubSame : AccountStub := ⟨1, 5, exFinalRoot, 0⟩

/-- Example final stub with the same id and a bumped nonce. -/
def exStubBumped : AccountStub := ⟨1, 6, exFinalRoot, 0⟩

/-- Example final stub with the same id and a strictly smaller nonce. -/
def exStubLower : AccountStub := ⟨1, 3, exFinalRoot, 0⟩

/-- Example final stub whose id differs from the initial account's id. -/
def exStubOtherId : AccountStub := ⟨2, 5, exFinalRoot, 0⟩

/-- Example outputs around exStubSame. -/
def exOutputsSame : TransactionOutputs := ⟨exStubSame, []⟩

/-- Example outputs around exStubBumped. -/
def exOutputsBumped : TransactionOutputs := ⟨exStubBumped, []⟩

/-- Example outputs around exStubLower. -/
def exOutputsLower : TransactionOutputs := ⟨exStubLower, []⟩

/-- Example outputs around exStubOtherId. -/
def exOutputsOtherId : TransactionOutputs := ⟨exStubOtherId, []⟩

/-- Example host with an empty vault delta. -/
def exHost : TransactionHost := ⟨[], 0⟩

-- ================================================================================================
-- THEOREMS: STORAGE DELTA CLAIMS
-- ================================================================================================

/-- Claim C2: applying the extracted delta's cleared items (reset each slot to
the empty sentinel) and then its updated items (set each slot to its listed new
value) to the initial storage tree yields the final storage root of the account
stub, at every leaf of the storage tree. -/
theorem storage_delta_roundtrip (initial_root final_root : StorageRoot) (i : Nat)
    (hi : i < 2 ^ AccountStorage.STORAGE_TREE_DEPTH) :
    applyUpdated
      (applyCleared initial_root
        (extract_account_storage_delta initial_root final_root).cleared_items)
      (extract_account_storage_delta initial_root final_root).updated_items i
    = final_root i := by
  rw [extract_cleared_eq, extract_updated_eq]
  simp only [merkle_tree_delta, applyUpdated, applyCleared]
  rw [lookup_map_pair]
  by_cases hne : initial_root i = final_root i
  · have hu : i ∉ (List.range (2 ^ AccountStorage.STORAGE_TREE_DEPTH)).filter
        (fun j => initial_root j != final_root j && final_root j != EMPTY_WORD) := by
      simp [List.mem_filter, hne]
    have hc : i ∉ (List.range (2 ^ AccountStorage.STORAGE_TREE_DEPTH)).filter
        (fun j => initial_root j != final_root j && final_root j == EMPTY_WORD) := by
      simp [List.mem_filter, hne]
    rw [if_neg hu]
    simpa [hc] using hne
  · by_cases hemp : final_root i = EMPTY_WORD
    · have hu : i ∉ (List.range (2 ^ AccountStorage.STORAGE_TREE_DEPTH)).filter
          (fun j => initial_root j != final_root j && final_root j != EMPTY_WORD) := by
        simp [List.mem_filter, hemp]
      have hc : i ∈ (List.range (2 ^ AccountStorage.STORAGE_TREE_DEPTH)).filter
          (fun j => initial_root j != final_root j && final_root j == EMPTY_WORD) := by
        simp only [List.mem_filter, List.mem_range, Bool.and_eq_true, bne_iff_ne, beq_iff_eq]
        exact ⟨hi, hne, hemp⟩
      rw [if_neg hu]
      simpa [hc] using hemp.symm
    · have hu : i ∈ (List.range (2 ^ AccountStorage.STORAGE_TREE_DEPTH)).filter
          (fun j => initial_root j != final_root j && final_root j != EMPTY_WORD) := by
        simp only [List.mem_filter, List.mem_range, Bool.and_eq_true, bne_iff_ne]
        exact ⟨hi, hne, hemp⟩
      rw [if_pos hu]

/-- Witness for claim C2: the round trip evaluated at slot 3 of the concrete
example storage change (slot 3 updated from 7 to 8, slot 5 cleared). -/
theorem storage_delta_roundtrip_witness :
    (3 : Nat) < 2 ^ AccountStorage.STORAGE_TREE_DEPTH
    ∧ applyUpdated
        (applyCleared exInitialRoot
          (extract_account_storage_delta exInitialRoot exFinalRoot).cleared_items)
        (extract_account_storage_delta exInitialRoot exFinalRoot).updated_items 3
      = exFinalRoot 3 :=
  ⟨by norm_num [AccountStorage.STORAGE_TREE_DEPTH],
   storage_delta_roundtrip exInitialRoot exFinalRoot 3
     (by norm_num [AccountStorage.STORAGE_TREE_DEPTH])⟩

/-- Claim C9: every slot index in the tree diff at the storage tree's fixed
depth is below 256, so the u8 cast in the extracted storage delta is lossless:
the extracted items equal the tree diff's slots unchanged. -/
theorem slot_indices_fit_u8 (initial_root final_root : StorageRoot) :
    (∀ i ∈ (merkle_tree_delta initial_root final_root
        AccountStorage.STORAGE_TREE_DEPTH).cleared_slots, i < 256 ∧ toU8 i = i)
    ∧ (∀ p ∈ (merkle_tree_delta initial_root final_root
        AccountStorage.STORAGE_TREE_DEPTH).updated_slots, p.1 < 256 ∧ toU8 p.1 = p.1)
    ∧ (extract_account_storage_delta initial_root final_root).cleared_items
        = (merkle_tree_delta initial_root final_root
            AccountStorage.STORAGE_TREE_DEPTH).cleared_slots
    ∧ (extract_account_storage_delta initial_root final_root).updated_items
        = (merkle_tree_delta initial_root final_root
            AccountStorage.STORAGE_TREE_DEPTH).updated_slots := by
  refine ⟨fun i hi => ?_, fun p hp => ?_,
    extract_cleared_eq initial_root final_root, extract_updated_eq initial_root final_root⟩
  · have h := merkle_tree_delta_cleared_lt initial_root final_root i hi
    exact ⟨h, Nat.mod_eq_of_lt h⟩
  · have h := merkle_tree_delta_updated_lt initial_root final_root p hp
    exact ⟨h, Nat.mod_eq_of_lt h⟩

/-- Witness for claim C9: slot 5 is cleared in the concrete example and its
index is below 256 with an identity u8 cast; the extracted cleared items equal
the diff's cleared slots. -/
theorem slot_indices_fit_u8_witness :
    ((5 : Nat) < 256 ∧ toU8 5 = 5)
    ∧ (extract_account_storage_delta exInitialRoot exFinalRoot).cleared_items
        = (merkle_tree_delta exInitialRoot exFinalRoot
            AccountStorage.STORAGE_TREE_DEPTH).cleared_slots :=
  ⟨(slot_indices_fit_u8 exInitialRoot exFinalRoot).1 5 (by decide),
   (slot_indices_fit_u8 exInitialRoot exFinalRoot).2.2.1⟩

-- ================================================================================================
-- THEOREMS: EVENT CODEC CLAIMS
-- ================================================================================================

/-- Claim C3: for every 32-bit value v, if the upper 16 bits of v are not 2 then
decoding fails with NotTransactionEvent v; if they are 2 but the low 16 bits are
not 0, 1 or 2 then decoding fails with InvalidTransactionEvent v; and every such
v decodes to exactly one of the three known events or one of those two errors. -/
theorem tryFromU32_classification (v : Nat) (_hv : v < 2 ^ 32) :
    (v >>> 16 ≠ 2 →
      TransactionEvent.tryFromU32 v = .error (.NotTransactionEvent v))
    ∧ (v >>> 16 = 2 → v &&& 0xFFFF ≠ 0 → v &&& 0xFFFF ≠ 1 → v &&& 0xFFFF ≠ 2 →
      TransactionEvent.tryFromU32 v = .error (.InvalidTransactionEvent v))
    ∧ ((∃ e, TransactionEvent.tryFromU32 v = .ok e)
      ∨ TransactionEvent.tryFromU32 v = .error (.NotTransactionEvent v)
      ∨ TransactionEvent.tryFromU32 v = .error (.InvalidTransactionEvent v)) := by
  have hmask : v &&& 0xFFFF = v % 65536 := by
    have h := Nat.and_pow_two_sub_one_eq_mod v 16
    norm_num at h
    exact h
  have hshift : v >>> 16 = v / 65536 := by
    rw [Nat.shiftRight_eq_div_pow]
  refine ⟨?_, ?_, ?_⟩
  · intro h
    simp [TransactionEvent.tryFromU32, h]
  · intro h h0 h1 h2
    rw [hmask] at h0 h1 h2
    rw [hshift] at h
    have hne0 : v ≠ 0x20000 := by omega
    have hne1 : v ≠ 0x20001 := by omega
    have hne2 : v ≠ 0x20002 := by omega
    have hpre : ¬ (v >>> 16 ≠ 2) := by
      rw [hshift]; omega
    simp [TransactionEvent.tryFromU32, hpre, hne0, hne1, hne2]
  · by_cases hpre : v >>> 16 ≠ 2
    · right; left; simp [TransactionEvent.tryFromU32, hpre]
    · by_cases h0 : v = 0x20000
      · left; exact ⟨.AddAssetToAccountVault, by simp [TransactionEvent.tryFromU32, hpre, h0]⟩
      · by_cases h1 : v = 0x20001
        · left; exact ⟨.RemoveAssetFromAccountVault, by simp [TransactionEvent.tryFromU32, hpre, h0, h1]⟩
        · by_cases h2 : v = 0x20002
          · left; exact ⟨.PushAccountProcedureIndex, by simp [TransactionEvent.tryFromU32, hpre, h0, h1, h2]⟩
          · right; right; simp [TransactionEvent.tryFromU32, hpre, h0, h1, h2]

/-- Witness for claim C3: the classification applied at the concrete 32-bit
values 5 (bad upper bits) and 0x20005 (good upper bits, unknown discriminant). -/
theorem tryFromU32_classification_witness :
    TransactionEvent.tryFromU32 5 = .error (.NotTransactionEvent 5)
    ∧ TransactionEvent.tryFromU32 0x20005 = .error (.InvalidTransactionEvent 0x20005) :=
  ⟨(tryFromU32_classification 5 (by norm_num)).1 (by decide),
   (tryFromU32_classification 0x20005 (by norm_num)).2.1 (by decide) (by decide) (by decide)
     (by decide)⟩

/-- Claim C7: decoding is a left inverse of encoding for the three known events,
and the encodings are the fixed codes 0x2_0000, 0x2_0001 and 0x2_0002. -/
theorem tryFromU32_left_inverse_toU32 :
    (∀ e : TransactionEvent, TransactionEvent.tryFromU32 e.toU32 = .ok e)
    ∧ TransactionEvent.toU32 .AddAssetToAccountVault = 0x20000
    ∧ TransactionEvent.toU32 .RemoveAssetFromAccountVault = 0x20001
    ∧ TransactionEvent.toU32 .PushAccountProcedureIndex = 0x20002 :=
  ⟨fun e => by cases e <;> rfl, rfl, rfl, rfl⟩

-- ================================================================================================
-- THEOREMS: VERIFIER CLAIM
-- ================================================================================================

/-- Claim C4: when the proof verifies with achieved security level s, the
verifier fails with InsufficientProofSecurityLevel (s, required) exactly when
s is below the configured level and succeeds otherwise; and when proof
verification itself fails the result is the wrapped verification error, so the
policy check is only ever reached after cryptographic verification succeeds. -/
theorem verify_security_level_policy (tv : TransactionVerifier) :
    (∀ s, s < tv.proof_security_level →
      tv.verify (.ok s) = .error (.InsufficientProofSecurityLevel s tv.proof_security_level))
    ∧ (∀ s, tv.proof_security_level ≤ s → tv.verify (.ok s) = .ok ())
    ∧ (∀ e, tv.verify (.error e) = .error (.TransactionVerificationFailed e)) := by
  refine ⟨fun s hs => ?_, fun s hs => ?_, fun e => rfl⟩
  · simp [TransactionVerifier.verify, hs]
  · simp [TransactionVerifier.verify, Nat.not_lt.mpr hs]

/-- Witness for claim C4: with required level 96, an achieved level of 10 is
rejected as insufficient and an achieved level of 100 is accepted. -/
theorem verify_security_level_policy_witness :
    TransactionVerifier.verify ⟨0, 96⟩ (.ok 10)
      = .error (.InsufficientProofSecurityLevel 10 96)
    ∧ TransactionVerifier.verify ⟨0, 96⟩ (.ok 100) = .ok () :=
  ⟨(verify_security_level_policy ⟨0, 96⟩).1 10 (by norm_num),
   (verify_security_level_policy ⟨0, 96⟩).2.1 100 (by norm_num)⟩

-- ================================================================================================
-- THEOREMS: EXECUTOR CLAIMS
-- ================================================================================================

/-- Claim C1: whenever the run reaches output parsing and the initial account's
id differs from the final account stub's id, execute_transaction fails with
InconsistentAccountId carrying the input id and the output id, returning no
executed transaction. -/
theorem execute_transaction_inconsistent_account_id
    (get_transaction_inputs : Except DataStoreError TransactionInputs)
    (compile_transaction : TransactionInputs → Except CompilerError Program)
    (vm_execute : Program → TransactionInputs →
      Except ExecutionError (StackOutputs × TransactionHost))
    (parse_transaction_outputs : StackOutputs →
      Except TransactionOutputError TransactionOutputs)
    (tx_script : Option TransactionScript)
    (tx_inputs : TransactionInputs) (program : Program)
    (stack_outputs : StackOutputs) (host : TransactionHost)
    (tx_outputs : TransactionOutputs)
    (hfetch : get_transaction_inputs = .ok tx_inputs)
    (hcompile : compile_transaction tx_inputs = .ok program)
    (hvm : vm_execute program tx_inputs = .ok (stack_outputs, host))
    (hparse : parse_transaction_outputs stack_outputs = .ok tx_outputs)
    (hid : tx_inputs.account.id ≠ tx_outputs.account.id) :
    execute_transaction get_transaction_inputs compile_transaction vm_execute
      parse_transaction_outputs tx_script
      = .error (.InconsistentAccountId tx_inputs.account.id tx_outputs.account.id) := by
  unfold execute_transaction prepare_transaction
  rw [hfetch]
  dsimp only
  rw [hcompile]
  dsimp only
  rw [hvm]
  dsimp only
  unfold build_executed_transaction
  rw [hparse]
  dsimp only
  rw [if_pos hid]

/-- Witness for claim C1: the concrete run whose final stub carries id 2 while
the initial account has id 1 fails with InconsistentAccountId 1 2. -/
theorem execute_transaction_inconsistent_account_id_witness :
    execute_transaction (.ok exTxInputs) (fun _ => .ok 1)
      (fun _ _ => .ok (0, exHost)) (fun _ => .ok exOutputsOtherId) none
      = .error (.InconsistentAccountId exTxInputs.account.id
          exOutputsOtherId.account.id) :=
  execute_transaction_inconsistent_account_id (.ok exTxInputs) (fun _ => .ok 1)
    (fun _ _ => .ok (0, exHost)) (fun _ => .ok exOutputsOtherId) none
    exTxInputs 1 0 exHost exOutputsOtherId rfl rfl rfl rfl (by decide)

/-- Claim C5: in a successful build (outputs parsed, ids equal), the assembled
delta's nonce component is none exactly when the initial and final nonces are
equal, and equals some of the final nonce otherwise. -/
theorem nonce_delta_none_iff_unchanged
    (parse_transaction_outputs : StackOutputs →
      Except TransactionOutputError TransactionOutputs)
    (program : Program) (tx_script : Option TransactionScript)
    (tx_inputs : TransactionInputs) (stack_outputs : StackOutputs)
    (host : TransactionHost) (tx_outputs : TransactionOutputs)
    (hparse : parse_transaction_outputs stack_outputs = .ok tx_outputs)
    (hid : tx_inputs.account.id = tx_outputs.account.id) :
    (resultNonceDelta (build_executed_transaction parse_transaction_outputs program
        tx_script tx_inputs stack_outputs host) = some none
      ↔ tx_inputs.account.nonce = tx_outputs.account.nonce)
    ∧ (tx_inputs.account.nonce ≠ tx_outputs.account.nonce →
        resultNonceDelta (build_executed_transaction parse_transaction_outputs program
          tx_script tx_inputs stack_outputs host)
        = some (some tx_outputs.account.nonce)) := by
  rw [build_executed_transaction_ok parse_transaction_outputs program tx_script
    tx_inputs stack_outputs host tx_outputs hparse hid]
  constructor
  · by_cases h : tx_inputs.account.nonce = tx_outputs.account.nonce
    · simp [resultNonceDelta, h]
    · simp [resultNonceDelta, h]
  · intro h
    simp [resultNonceDelta, h]

/-- Witness for claim C5: with the concrete example inputs, an unchanged nonce
yields nonce delta none and a bumped nonce yields some of the final nonce. -/
theorem nonce_delta_none_iff_unchanged_witness :
    resultNonceDelta (build_executed_transaction (fun _ => .ok exOutputsSame) 1
      none exTxInputs 0 exHost) = some none
    ∧ resultNonceDelta (build_executed_transaction (fun _ => .ok exOutputsBumped) 1
      none exTxInputs 0 exHost) = some (some exOutputsBumped.account.nonce) :=
  ⟨(nonce_delta_none_iff_unchanged (fun _ => .ok exOutputsSame) 1 none exTxInputs 0
      exHost exOutputsSame rfl rfl).1.mpr rfl,
   (nonce_delta_none_iff_unchanged (fun _ => .ok exOutputsBumped) 1 none exTxInputs 0
      exHost exOutputsBumped rfl rfl).2 (by decide)⟩

/-- Claim C6: a combined account delta can only be constructed with disjoint
cleared and updated slot sets: any delta returned by the checked constructor
has no overlap, a delta with an overlapping slot index is rejected with none,
and the storage-delta extraction never produces an overlap. -/
theorem account_delta_disjoint_and_fail_fast :
    (∀ (sd : AccountStorageDelta) (vd : AccountVaultDelta) (nd : Option Felt)
        (d : AccountDelta), AccountDelta.new sd vd nd = some d →
        d.storage.hasOverlap = false)
    ∧ (∀ (sd : AccountStorageDelta) (vd : AccountVaultDelta) (nd : Option Felt),
        sd.hasOverlap = true → AccountDelta.new sd vd nd = none)
    ∧ (∀ initial_root final_root : StorageRoot,
        (extract_account_storage_delta initial_root final_root).hasOverlap = false) := by
  refine ⟨?_, ?_, hasOverlap_extract⟩
  · intro sd vd nd d h
    rw [AccountDelta.new] at h
    split at h
    · cases h
    · cases h
      next ho => simpa using ho
  · intro sd vd nd h
    simp [AccountDelta.new, h]

/-- Witness for claim C6: the self-contradictory delta that both clears and
updates slot 3 is rejected, and the concrete example extraction overlaps
nowhere. -/
theorem account_delta_disjoint_and_fail_fast_witness :
    AccountDelta.new ⟨[3], [(3, 0)]⟩ [] none = none
    ∧ (extract_account_storage_delta exInitialRoot exFinalRoot).hasOverlap = false :=
  ⟨account_delta_disjoint_and_fail_fast.2.1 ⟨[3], [(3, 0)]⟩ [] none (by decide),
   account_delta_disjoint_and_fail_fast.2.2 exInitialRoot exFinalRoot⟩

/-- Claim C8: the pipeline fails with distinct wrapped errors in a fixed order:
a failed data-store fetch yields FetchTransactionInputsFailed whatever the
compiler and VM would do; a compilation failure yields the wrapped compiler
error (spelled CompileTransactionFiled in the source) whatever the VM would
do; a VM fault yields ExecuteTransactionProgramFailed whatever the output
parser would do, with no executed transaction salvaged; and the three wrappers
are pairwise distinct. -/
theorem pipeline_error_precedence :
    (∀ (e : DataStoreError)
        (compile_transaction : TransactionInputs → Except CompilerError Program)
        (vm_execute : Program → TransactionInputs →
          Except ExecutionError (StackOutputs × TransactionHost))
        (parse_transaction_outputs : StackOutputs →
          Except TransactionOutputError TransactionOutputs)
        (tx_script : Option TransactionScript),
      execute_transaction (.error e) compile_transaction vm_execute
        parse_transaction_outputs tx_script
        = .error (.FetchTransactionInputsFailed e))
    ∧ (∀ (tx_inputs : TransactionInputs) (ce : CompilerError)
        (compile_transaction : TransactionInputs → Except CompilerError Program)
        (vm_execute : Program → TransactionInputs →
          Except ExecutionError (StackOutputs × TransactionHost))
        (parse_transaction_outputs : StackOutputs →
          Except TransactionOutputError TransactionOutputs)
        (tx_script : Option TransactionScript),
        compile_transaction tx_inputs = .error ce →
        execute_transaction (.ok tx_inputs) compile_transaction vm_execute
          parse_transaction_outputs tx_script
          = .error (.CompileTransactionFiled ce))
    ∧ (∀ (tx_inputs : TransactionInputs)
        (compile_transaction : TransactionInputs → Except CompilerError Program)
        (program : Program) (ee : ExecutionError)
        (vm_execute : Program → TransactionInputs →
          Except ExecutionError (StackOutputs × TransactionHost))
        (parse_transaction_outputs : StackOutputs →
          Except TransactionOutputError TransactionOutputs)
        (tx_script : Option TransactionScript),
        compile_transaction tx_inputs = .ok program →
        vm_execute program tx_inputs = .error ee →
        execute_transaction (.ok tx_inputs) compile_transaction vm_execute
          parse_transaction_outputs tx_script
          = .error (.ExecuteTransactionProgramFailed ee))
    ∧ (∀ (e : DataStoreError) (ce : CompilerError) (ee : ExecutionError),
        TransactionExecutorError.FetchTransactionInputsFailed e
          ≠ TransactionExecutorError.CompileTransactionFiled ce
        ∧ TransactionExecutorError.CompileTransactionFiled ce
          ≠ TransactionExecutorError.ExecuteTransactionProgramFailed ee
        ∧ TransactionExecutorError.FetchTransactionInputsFailed e
          ≠ TransactionExecutorError.ExecuteTransactionProgramFailed ee) := by
  refine ⟨?_, ?_, ?_, ?_⟩
  · intro e compile_transaction vm_execute parse_transaction_outputs tx_script
    rfl
  · intro tx_inputs ce compile_transaction vm_execute parse_transaction_outputs
      tx_script hcompile
    unfold execute_transaction prepare_transaction
    dsimp only
    rw [hcompile]
  · intro tx_inputs compile_transaction program ee vm_execute
      parse_transaction_outputs tx_script hcompile hvm
    unfold execute_transaction prepare_transaction
    dsimp only
    rw [hcompile]
    dsimp only
    rw [hvm]
  · intro e ce ee
    refine ⟨fun h => ?_, fun h => ?_, fun h => ?_⟩ <;> cases h

/-- Witness for claim C8: concrete runs in which the fetch fails with error 3,
the compiler fails with error 7 and the VM faults with error 9 produce the
three distinct wrapped errors. -/
theorem pipeline_error_precedence_witness :
    execute_transaction (.error 3) (fun _ => .ok 1) (fun _ _ => .error 9)
      (fun _ => .error 0) none = .error (.FetchTransactionInputsFailed 3)
    ∧ execute_transaction (.ok exTxInputs) (fun _ => .error 7)
      (fun _ _ => .ok (0, exHost)) (fun _ => .error 0) none
      = .error (.CompileTransactionFiled 7)
    ∧ execute_transaction (.ok exTxInputs) (fun _ => .ok 1) (fun _ _ => .error 9)
      (fun _ => .error 0) none = .error (.ExecuteTransactionProgramFailed 9) :=
  ⟨pipeline_error_precedence.1 3 (fun _ => .ok 1) (fun _ _ => .error 9)
      (fun _ => .error 0) none,
   pipeline_error_precedence.2.1 exTxInputs 7 (fun _ => .error 7)
      (fun _ _ => .ok (0, exHost)) (fun _ => .error 0) none rfl,
   pipeline_error_precedence.2.2.1 exTxInputs (fun _ => .ok 1) 1 9
      (fun _ _ => .error 9) (fun _ => .error 0) none rfl rfl⟩

/-- Claim C10: the build imposes no monotonicity on the nonce: when the final
nonce is strictly smaller than the initial nonce (ids equal, parsing
successful), no error is raised and the nonce delta is some of the smaller
final nonce. -/
theorem nonce_decrease_allowed
    (parse_transaction_outputs : StackOutputs →
      Except TransactionOutputError TransactionOutputs)
    (program : Program) (tx_script : Option TransactionScript)
    (tx_inputs : TransactionInputs) (stack_outputs : StackOutputs)
    (host : TransactionHost) (tx_outputs : TransactionOutputs)
    (hparse : parse_transaction_outputs stack_outputs = .ok tx_outputs)
    (hid : tx_inputs.account.id = tx_outputs.account.id)
    (hlt : tx_outputs.account.nonce < tx_inputs.account.nonce) :
    resultNonceDelta (build_executed_transaction parse_transaction_outputs program
      tx_script tx_inputs stack_outputs host)
      = some (some tx_outputs.account.nonce) := by
  rw [build_executed_transaction_ok parse_transaction_outputs program tx_script
    tx_inputs stack_outputs host tx_outputs hparse hid]
  have hne : tx_inputs.account.nonce ≠ tx_outputs.account.nonce :=
    (Nat.ne_of_lt hlt).symm
  simp [resultNonceDelta, hne]

/-- Witness for claim C10: the concrete run whose final nonce 3 is below the
initial nonce 5 succeeds with nonce delta some 3. -/
theorem nonce_decrease_allowed_witness :
    resultNonceDelta (build_executed_transaction (fun _ => .ok exOutputsLower) 1
      none exTxInputs 0 exHost) = some (some exOutputsLower.account.nonce) :=
  nonce_decrease_allowed (fun _ => .ok exOutputsLower) 1 none exTxInputs 0 exHost
    exOutputsLower rfl rfl (by decide)

end MidenBase
